import Mathlib

/-! `sendFeishuMessage` (feishu-mcp/scripts/send_message_bookmarklet.js)

A shallow embedding of the bookmarklet.  The script is one `async` function that
talks to the browser: it prints to the console, queries the document, clicks
elements, awaits timers, writes `textContent` and dispatches a keyboard event.
The embedding makes every such interaction an `Event` and returns the events in
program order together with the way the returned promise settles.

What the script observes of the page is a `Page`: the elements returned by the
`querySelectorAll` of line 8, in document order, and the elements matching
`[contenteditable="true"]`, in document order, as they stand when line 26 runs.
Both selectors match elements of any kind, and the same element may match both;
elements are told apart by their node id.
-/

namespace Feishu

/-! ## Data model -/

/-- The fields of the `KeyboardEvent` built at lines 39-45: the event type and
the members of the init dictionary. -/
structure KeyboardEvent where
  type : String
  key : String
  code : String
  keyCode : Nat
  which : Nat
  bubbles : Bool
deriving DecidableEq, Repr

/-- JavaScript values a caller can receive from the function. -/
inductive JsValue where
  | undefined
  | null
  | boolean (b : Bool)
  | string (s : String)
deriving DecidableEq, Repr

/-- Exceptions the script can raise. -/
inductive JsError where
  /-- `TypeError`: a property read on `undefined`, or a call of something that is
  not a function -/
  | typeError
deriving DecidableEq, Repr

/-- How the promise returned by the `async` function settles. -/
inductive Completion where
  /-- the body returned `value` -/
  | fulfilled (value : JsValue)
  /-- the body threw `error` -/
  | rejected (error : JsError)
deriving DecidableEq, Repr

/-- An element of the document.  `innerText` and `click()` are members of the
`HTMLElement` interface only: an element of another kind (SVG, MathML) that a
selector matches has neither. -/
structure Element where
  /-- identity of the node in the document -/
  node : Nat
  /-- whether the element is an `HTMLElement` -/
  isHTMLElement : Bool
  /-- rendered text of an HTML element -/
  innerText : String
deriving DecidableEq, Repr

/-- One interaction of the script with the browser, on the node named. -/
inductive Event where
  /-- `console.log(msg)` -/
  | log (msg : String)
  /-- `console.error(msg)` -/
  | error (msg : String)
  /-- `document.querySelectorAll(selector)` -/
  | querySelectorAll (selector : String)
  /-- `elem.click()` (line 13) or `input.click()` (line 33) -/
  | click (node : Nat)
  /-- `await new Promise(r => setTimeout(r, ms))` -/
  | wait (ms : Nat)
  /-- `document.querySelector(selector)` -/
  | querySelector (selector : String)
  /-- `input.textContent = text` -/
  | setTextContent (node : Nat) (text : String)
  /-- `input.dispatchEvent(ev)` -/
  | dispatchEvent (node : Nat) (ev : KeyboardEvent)
deriving DecidableEq, Repr

/-- The part of the document the script reads. -/
structure Page where
  /-- elements matched at line 8, in document order -/
  chats : List Element
  /-- elements matching `[contenteditable="true"]`, in document order, at the
  time line 26 runs -/
  editables : List Element
deriving DecidableEq, Repr

/-- The result of one call: the interactions in program order and the way the
returned promise settles. -/
structure Run where
  trace : List Event
  completion : Completion
deriving DecidableEq, Repr

/-! ## Browser primitives used by the script -/

/-- Search `search` at every position of the text, left to right
(`String.prototype.includes` with position 0). -/
def includesChars (search : List Char) : List Char → Bool
  | [] => search.isPrefixOf []
  | c :: rest => search.isPrefixOf (c :: rest) || includesChars search rest

/-- `s.includes(search)`.  Strings are sequences of characters compared exactly
(no case folding); for well-formed text a match on characters is a match on
UTF-16 code units and conversely. -/
def includes (s search : String) : Bool :=
  includesChars search.toList s.toList

/-- `elem.innerText`: the rendered text of an HTML element, `undefined` (here
`none`) on an element of another kind. -/
def Element.getInnerText (elem : Element) : Option String :=
  if elem.isHTMLElement then some elem.innerText else none

/-- Whether `elem.click` is a function. -/
def Element.hasClick (elem : Element) : Bool :=
  elem.isHTMLElement

/-- `document.querySelector`: the first matching element in document order, or
`null`. -/
def querySelector (matching : List Element) : Option Element :=
  matching.head?

/-- Selector of line 8. -/
def chatSelector : String := "[class*=\"chat\"], [class*=\"conversation\"]"

/-- Selector of line 26. -/
def inputSelector : String := "[contenteditable=\"true\"]"

/-- The event object of lines 39-45. -/
def enterEvent : KeyboardEvent :=
  { type := "keydown", key := "Enter", code := "Enter", keyCode := 13, which := 13,
    bubbles := true }

/-! ## The script -/

/-- The `for ... of` loop of lines 11-18: the value of `found` after the loop and
the interactions performed, or the exception raised at line 12 when
`elem.innerText` is `undefined`. -/
def scanChats (chatName : String) : List Element → Except JsError (Bool × List Event)
  | [] => Except.ok (false, [])
  | elem :: rest =>
    match elem.getInnerText with
    | none => Except.error JsError.typeError
    | some text =>
      if includes text chatName then
        Except.ok (true, [Event.click elem.node, Event.wait 1000])
      else
        scanChats chatName rest

/-- Lines 4-49. -/
def sendFeishuMessage (page : Page) (chatName message : String) : Run :=
  let t0 := [Event.log ("Sending to " ++ chatName ++ ": " ++ message),
             Event.querySelectorAll chatSelector]
  match scanChats chatName page.chats with
  | Except.error err => { trace := t0, completion := Completion.rejected err }
  | Except.ok scan =>
    let t1 := t0 ++ scan.2
    if !scan.1 then
      { trace := t1 ++ [Event.error ("Chat \"" ++ chatName ++ "\" not found")],
        completion := Completion.fulfilled JsValue.undefined }
    else
      let t2 := t1 ++ [Event.querySelector inputSelector]
      match querySelector page.editables with
      | none =>
        { trace := t2 ++ [Event.error "Input field not found"],
          completion := Completion.fulfilled JsValue.undefined }
      | some input =>
        if !input.hasClick then
          { trace := t2, completion := Completion.rejected JsError.typeError }
        else
          { trace := t2 ++ [Event.click input.node, Event.wait 300,
                            Event.setTextContent input.node message, Event.wait 300,
                            Event.dispatchEvent input.node enterEvent,
                            Event.log "✓ Message sent!"],
            completion := Completion.fulfilled JsValue.undefined }

/-- Line 55, the call the script makes when pasted into the console. -/
def main (page : Page) : Run :=
  sendFeishuMessage page "Hany" "Testing Feishu Pro - working with existing browser!"

/-! ## Observations on a run -/

/-- The text `text` contains `label` as a contiguous run of characters. -/
def containsText (text label : String) : Prop :=
  label.toList <:+: text.toList

/-- Containment is decided by running `includes`. -/
instance containsTextDecidable (text label : String) : Decidable (containsText text label) :=
  decidable_of_iff (includes text label = true) (by
    unfold includes containsText
    generalize text.toList = s
    induction s with
    | nil => simp [includesChars]
    | cons c rest ih =>
      simp only [includesChars, Bool.or_eq_true, ih, List.isPrefixOf_iff_prefix]
      exact (List.infix_cons_iff).symm)

/-- Position `i` of the list holds `elem`, an HTML element whose text contains
`chatName`, and every element before it is an HTML element whose text does not
contain `chatName`. -/
def FirstMatch (chats : List Element) (chatName : String) (i : Nat) (elem : Element) : Prop :=
  chats[i]? = some elem ∧ elem.isHTMLElement = true ∧ containsText elem.innerText chatName ∧
    ∀ j, j < i → ∀ e, chats[j]? = some e →
      e.isHTMLElement = true ∧ ¬ containsText e.innerText chatName

/-- Every element of the list is an HTML element whose text does not contain
`chatName`. -/
def NoMatch (chats : List Element) (chatName : String) : Prop :=
  ∀ e ∈ chats, e.isHTMLElement = true ∧ ¬ containsText e.innerText chatName

/-- Some position of the list holds an element that is not an HTML element, and
every element before it is an HTML element whose text does not contain
`chatName`. -/
def ScanThrows (chats : List Element) (chatName : String) : Prop :=
  ∃ (i : Nat) (elem : Element), chats[i]? = some elem ∧ elem.isHTMLElement = false ∧
    ∀ j, j < i → ∀ e : Element, chats[j]? = some e →
      e.isHTMLElement = true ∧ ¬ containsText e.innerText chatName

/-- The console announcement of line 5. -/
def announcement (chatName message : String) : Event :=
  Event.log ("Sending to " ++ chatName ++ ": " ++ message)

/-- The report of line 21. -/
def chatNotFound (chatName : String) : Event :=
  Event.error ("Chat \"" ++ chatName ++ "\" not found")

/-- The report of line 28. -/
def inputNotFound : Event :=
  Event.error "Input field not found"

/-- The report of line 48. -/
def messageSent : Event :=
  Event.log "✓ Message sent!"

/-- Nodes clicked, in order. -/
def clicks : List Event → List Nat
  | [] => []
  | Event.click node :: rest => node :: clicks rest
  | _ :: rest => clicks rest

/-- Delays awaited, in order, in milliseconds. -/
def waits : List Event → List Nat
  | [] => []
  | Event.wait ms :: rest => ms :: waits rest
  | _ :: rest => waits rest

/-- Keyboard events dispatched, in order, each with the node it is dispatched on. -/
def keyEvents : List Event → List (Nat × KeyboardEvent)
  | [] => []
  | Event.dispatchEvent node ev :: rest => (node, ev) :: keyEvents rest
  | _ :: rest => keyEvents rest

/-- The part of a trace that precedes the first dispatched keyboard event. -/
def beforeDispatch : List Event → List Event
  | [] => []
  | Event.dispatchEvent _ _ :: _ => []
  | ev :: rest => ev :: beforeDispatch rest

/-- Selectors of the `document.querySelector` calls made, in order. -/
def inputLookups : List Event → List String
  | [] => []
  | Event.querySelector selector :: rest => selector :: inputLookups rest
  | _ :: rest => inputLookups rest

/-- The node an interaction acts on, if it acts on a node: a click, a content
write or a dispatched event. -/
def target : Event → Option Nat
  | Event.click node => some node
  | Event.setTextContent node _ => some node
  | Event.dispatchEvent node _ => some node
  | _ => none

/-- The `textContent` of every node after the interactions of a trace, from the
contents `init`: an assignment to `textContent` replaces the whole content of
its node, and no other interaction of the script writes content. -/
def textContentAfter (init : Nat → String) : List Event → Nat → String
  | [] => init
  | Event.setTextContent node text :: rest =>
    textContentAfter (fun n => if n = node then text else init n) rest
  | _ :: rest => textContentAfter init rest

/-! ## The loop -/

theorem includesChars_iff (search s : List Char) :
    includesChars search s = true ↔ search <:+: s := by
  induction s with
  | nil => simp [includesChars]
  | cons c rest ih =>
    simp only [includesChars, Bool.or_eq_true, ih, List.isPrefixOf_iff_prefix]
    exact (List.infix_cons_iff).symm

theorem includes_iff (text label : String) :
    includes text label = true ↔ containsText text label :=
  includesChars_iff label.toList text.toList

/-- The prefix condition shared by `FirstMatch` and `ScanThrows`, moved under one
more element. -/
theorem prefix_cons {chatName : String} {e0 : Element} {rest : List Element} {i : Nat}
    (h0 : e0.isHTMLElement = true ∧ ¬ containsText e0.innerText chatName)
    (h : ∀ j, j < i → ∀ e, rest[j]? = some e →
      e.isHTMLElement = true ∧ ¬ containsText e.innerText chatName) :
    ∀ j, j < i + 1 → ∀ e, (e0 :: rest)[j]? = some e →
      e.isHTMLElement = true ∧ ¬ containsText e.innerText chatName := by
  intro j hj e he
  cases j with
  | zero => simp at he; subst he; exact h0
  | succ j => exact h j (by omega) e (by simpa using he)

/-- What the loop does: nothing when every element is an HTML element without
the label, a click and a wait on the first match, a `TypeError` at the first
element that is not an HTML element when no match precedes it. -/
theorem scanChats_spec (chatName : String) (chats : List Element) :
    (NoMatch chats chatName ∧ scanChats chatName chats = Except.ok (false, [])) ∨
    (∃ i elem, FirstMatch chats chatName i elem ∧
      scanChats chatName chats =
        Except.ok (true, [Event.click elem.node, Event.wait 1000])) ∨
    (ScanThrows chats chatName ∧
      scanChats chatName chats = Except.error JsError.typeError) := by
  induction chats with
  | nil => left; simp [scanChats, NoMatch]
  | cons e0 rest ih =>
    by_cases hhtml : e0.isHTMLElement = true
    · by_cases hinc : includes e0.innerText chatName = true
      · right; left
        refine ⟨0, e0, ⟨by simp, hhtml, (includes_iff _ _).mp hinc, by intro j hj; omega⟩, ?_⟩
        simp [scanChats, Element.getInnerText, hhtml, hinc]
      · have hf : ¬ containsText e0.innerText chatName :=
          fun hc => hinc ((includes_iff _ _).mpr hc)
        have hstep : scanChats chatName (e0 :: rest) = scanChats chatName rest := by
          simp [scanChats, Element.getInnerText, hhtml, hinc]
        rcases ih with ⟨hn, hs⟩ | ⟨i, elem, ⟨hget, hel, hct, hpre⟩, hs⟩ |
          ⟨⟨i, elem, hget, hel, hpre⟩, hs⟩
        · left
          refine ⟨?_, by rw [hstep, hs]⟩
          intro e he
          rcases List.mem_cons.mp he with rfl | he
          · exact ⟨hhtml, hf⟩
          · exact hn e he
        · right; left
          exact ⟨i + 1, elem, ⟨by simpa using hget, hel, hct, prefix_cons ⟨hhtml, hf⟩ hpre⟩,
            by rw [hstep, hs]⟩
        · right; right
          exact ⟨⟨i + 1, elem, by simpa using hget, hel, prefix_cons ⟨hhtml, hf⟩ hpre⟩,
            by rw [hstep, hs]⟩
    · right; right
      have hfalse : e0.isHTMLElement = false := by simpa using hhtml
      refine ⟨⟨0, e0, by simp, hfalse, by intro j hj; omega⟩, ?_⟩
      simp [scanChats, Element.getInnerText, hfalse]

theorem firstMatch_unique {chats : List Element} {chatName : String} {i j : Nat}
    {a b : Element} (ha : FirstMatch chats chatName i a) (hb : FirstMatch chats chatName j b) :
    i = j ∧ a = b := by
  obtain ⟨hga, _, hca, hpa⟩ := ha
  obtain ⟨hgb, _, hcb, hpb⟩ := hb
  rcases Nat.lt_trichotomy i j with h | h | h
  · exact absurd hca (hpb i h a hga).2
  · subst h
    exact ⟨rfl, Option.some.inj (hga.symm.trans hgb)⟩
  · exact absurd hcb (hpa j h b hgb).2

theorem noMatch_not_firstMatch {chats : List Element} {chatName : String} {i : Nat}
    {a : Element} (hn : NoMatch chats chatName) : ¬ FirstMatch chats chatName i a := by
  rintro ⟨hga, _, hca, _⟩
  exact (hn a (List.getElem?_mem hga)).2 hca

theorem noMatch_not_scanThrows {chats : List Element} {chatName : String}
    (hn : NoMatch chats chatName) : ¬ ScanThrows chats chatName := by
  rintro ⟨i, e, hg, hf, _⟩
  have := (hn e (List.getElem?_mem hg)).1
  simp [hf] at this

theorem firstMatch_not_scanThrows {chats : List Element} {chatName : String} {i : Nat}
    {a : Element} (ha : FirstMatch chats chatName i a) : ¬ ScanThrows chats chatName := by
  obtain ⟨hga, hha, hca, hpa⟩ := ha
  rintro ⟨k, e, hg, hf, hpe⟩
  rcases Nat.lt_trichotomy i k with h | h | h
  · exact absurd hca (hpe i h a hga).2
  · subst h
    have hae : a = e := Option.some.inj (hga.symm.trans hg)
    subst hae
    simp [hf] at hha
  · have := (hpa k h e hg).1
    simp [hf] at this

/-! ## The five paths -/

/-- Path 1: the scan reaches an element that is not an HTML element. -/
theorem run_scanThrows (page : Page) (chatName message : String)
    (h : ScanThrows page.chats chatName) :
    sendFeishuMessage page chatName message =
      { trace := [announcement chatName message, Event.querySelectorAll chatSelector],
        completion := Completion.rejected JsError.typeError } := by
  rcases scanChats_spec chatName page.chats with ⟨hn, _⟩ | ⟨i, e, hf, _⟩ | ⟨_, hs⟩
  · exact absurd h (noMatch_not_scanThrows hn)
  · exact absurd h (firstMatch_not_scanThrows hf)
  · simp [sendFeishuMessage, hs, announcement]

/-- Path 2: nothing matches. -/
theorem run_chatNotFound (page : Page) (chatName message : String)
    (h : NoMatch page.chats chatName) :
    sendFeishuMessage page chatName message =
      { trace := [announcement chatName message, Event.querySelectorAll chatSelector,
                  chatNotFound chatName],
        completion := Completion.fulfilled JsValue.undefined } := by
  rcases scanChats_spec chatName page.chats with ⟨_, hs⟩ | ⟨i, e, hf, _⟩ | ⟨ht, _⟩
  · simp [sendFeishuMessage, hs, announcement, chatNotFound]
  · exact absurd hf (noMatch_not_firstMatch h)
  · exact absurd ht (noMatch_not_scanThrows h)

/-- The scan on a list with a first match. -/
theorem scanChats_firstMatch {chats : List Element} {chatName : String} {i : Nat}
    {elem : Element} (h : FirstMatch chats chatName i elem) :
    scanChats chatName chats = Except.ok (true, [Event.click elem.node, Event.wait 1000]) := by
  rcases scanChats_spec chatName chats with ⟨hn, _⟩ | ⟨j, e, hf, hs⟩ | ⟨ht, _⟩
  · exact absurd h (noMatch_not_firstMatch hn)
  · obtain ⟨_, hee⟩ := firstMatch_unique hf h
    rw [hs, hee]
  · exact absurd ht (firstMatch_not_scanThrows h)

/-- Path 3: a chat is activated, no editable element is found. -/
theorem run_inputNotFound (page : Page) (chatName message : String) (i : Nat)
    (elem : Element) (hi : FirstMatch page.chats chatName i elem)
    (he : querySelector page.editables = none) :
    sendFeishuMessage page chatName message =
      { trace := [announcement chatName message, Event.querySelectorAll chatSelector,
                  Event.click elem.node, Event.wait 1000, Event.querySelector inputSelector,
                  inputNotFound],
        completion := Completion.fulfilled JsValue.undefined } := by
  simp [sendFeishuMessage, scanChats_firstMatch hi, he, announcement, inputNotFound]

/-- Path 4: a chat is activated, the editable element found has no `click`. -/
theorem run_clickThrows (page : Page) (chatName message : String) (i : Nat)
    (elem input : Element) (hi : FirstMatch page.chats chatName i elem)
    (he : querySelector page.editables = some input) (hh : input.isHTMLElement = false) :
    sendFeishuMessage page chatName message =
      { trace := [announcement chatName message, Event.querySelectorAll chatSelector,
                  Event.click elem.node, Event.wait 1000, Event.querySelector inputSelector],
        completion := Completion.rejected JsError.typeError } := by
  simp [sendFeishuMessage, scanChats_firstMatch hi, he, hh, Element.hasClick, announcement]

/-- Path 5: a chat is activated and the editable element found is an HTML element. -/
theorem run_sent (page : Page) (chatName message : String) (i : Nat)
    (elem input : Element) (hi : FirstMatch page.chats chatName i elem)
    (he : querySelector page.editables = some input) (hh : input.isHTMLElement = true) :
    sendFeishuMessage page chatName message =
      { trace := [announcement chatName message, Event.querySelectorAll chatSelector,
                  Event.click elem.node, Event.wait 1000, Event.querySelector inputSelector,
                  Event.click input.node, Event.wait 300,
                  Event.setTextContent input.node message, Event.wait 300,
                  Event.dispatchEvent input.node enterEvent, messageSent],
        completion := Completion.fulfilled JsValue.undefined } := by
  simp [sendFeishuMessage, scanChats_firstMatch hi, he, hh, Element.hasClick, announcement,
    messageSent]

/-- Every run is one of the five paths. -/
theorem run_cases (page : Page) (chatName message : String) :
    (ScanThrows page.chats chatName ∧
      sendFeishuMessage page chatName message =
        { trace := [announcement chatName message, Event.querySelectorAll chatSelector],
          completion := Completion.rejected JsError.typeError }) ∨
    (NoMatch page.chats chatName ∧
      sendFeishuMessage page chatName message =
        { trace := [announcement chatName message, Event.querySelectorAll chatSelector,
                    chatNotFound chatName],
          completion := Completion.fulfilled JsValue.undefined }) ∨
    (∃ i elem, FirstMatch page.chats chatName i elem ∧
      querySelector page.editables = none ∧
      sendFeishuMessage page chatName message =
        { trace := [announcement chatName message, Event.querySelectorAll chatSelector,
                    Event.click elem.node, Event.wait 1000, Event.querySelector inputSelector,
                    inputNotFound],
          completion := Completion.fulfilled JsValue.undefined }) ∨
    (∃ i elem input, FirstMatch page.chats chatName i elem ∧
      querySelector page.editables = some input ∧ input.isHTMLElement = false ∧
      sendFeishuMessage page chatName message =
        { trace := [announcement chatName message, Event.querySelectorAll chatSelector,
                    Event.click elem.node, Event.wait 1000, Event.querySelector inputSelector],
          completion := Completion.rejected JsError.typeError }) ∨
    (∃ i elem input, FirstMatch page.chats chatName i elem ∧
      querySelector page.editables = some input ∧ input.isHTMLElement = true ∧
      sendFeishuMessage page chatName message =
        { trace := [announcement chatName message, Event.querySelectorAll chatSelector,
                    Event.click elem.node, Event.wait 1000, Event.querySelector inputSelector,
                    Event.click input.node, Event.wait 300,
                    Event.setTextContent input.node message, Event.wait 300,
                    Event.dispatchEvent input.node enterEvent, messageSent],
          completion := Completion.fulfilled JsValue.undefined }) := by
  rcases scanChats_spec chatName page.chats with ⟨hn, _⟩ | ⟨i, elem, hf, _⟩ | ⟨ht, _⟩
  · exact Or.inr (Or.inl ⟨hn, run_chatNotFound page chatName message hn⟩)
  · cases he : querySelector page.editables with
    | none =>
      exact Or.inr (Or.inr (Or.inl
        ⟨i, elem, hf, rfl, run_inputNotFound page chatName message i elem hf he⟩))
    | some input =>
      cases hh : input.isHTMLElement with
      | false =>
        exact Or.inr (Or.inr (Or.inr (Or.inl
          ⟨i, elem, input, hf, rfl, hh,
            run_clickThrows page chatName message i elem input hf he hh⟩)))
      | true =>
        exact Or.inr (Or.inr (Or.inr (Or.inr
          ⟨i, elem, input, hf, rfl, hh,
            run_sent page chatName message i elem input hf he hh⟩)))
  · exact Or.inl ⟨ht, run_scanThrows page chatName message ht⟩

theorem announcement_ne_messageSent (chatName message : String) :
    announcement chatName message ≠ messageSent := by
  intro h
  have h2 := congrArg String.data (Event.log.inj h)
  simp at h2

theorem chatNotFound_ne_inputNotFound (chatName : String) :
    chatNotFound chatName ≠ inputNotFound := by
  intro h
  have h2 := congrArg String.data (Event.error.inj h)
  simp at h2

/-- Success is reported exactly on path 5. -/
theorem messageSent_mem_iff (page : Page) (chatName message : String) :
    messageSent ∈ (sendFeishuMessage page chatName message).trace ↔
      ∃ i elem input, FirstMatch page.chats chatName i elem ∧
        querySelector page.editables = some input ∧ input.isHTMLElement = true := by
  have hne : Event.log "✓ Message sent!" ≠ announcement chatName message :=
    (announcement_ne_messageSent chatName message).symm
  rcases run_cases page chatName message with ⟨ht, hr⟩ | ⟨hn, hr⟩ | ⟨i, e, hf, he, hr⟩ |
    ⟨i, e, input, hf, he, hh, hr⟩ | ⟨i, e, input, hf, he, hh, hr⟩
  · rw [hr]
    constructor
    · intro h; simp [messageSent, hne] at h
    · rintro ⟨j, e, _, hf, _⟩; exact absurd ht (firstMatch_not_scanThrows hf)
  · rw [hr]
    constructor
    · intro h; simp [messageSent, hne, chatNotFound] at h
    · rintro ⟨j, e, _, hf, _⟩; exact absurd hf (noMatch_not_firstMatch hn)
  · rw [hr]
    constructor
    · intro h; simp [messageSent, hne, inputNotFound] at h
    · rintro ⟨j, e2, input, _, he2, _⟩; simp [he] at he2
  · rw [hr]
    constructor
    · intro h; simp [messageSent, hne] at h
    · rintro ⟨j, e2, input2, _, he2, hh2⟩
      have : input = input2 := Option.some.inj (he.symm.trans he2)
      subst this
      simp [hh] at hh2
  · rw [hr]
    exact ⟨fun _ => ⟨i, e, input, hf, he, hh⟩, fun _ => by simp⟩

/-- The `Chat "..." not found` report appears exactly on path 2. -/
theorem chatNotFound_mem_iff (page : Page) (chatName message : String) :
    chatNotFound chatName ∈ (sendFeishuMessage page chatName message).trace ↔
      NoMatch page.chats chatName := by
  have hne := chatNotFound_ne_inputNotFound chatName
  have hann : chatNotFound chatName ≠ announcement chatName message := by
    simp [chatNotFound, announcement]
  have hsent : chatNotFound chatName ≠ messageSent := by simp [chatNotFound, messageSent]
  have hq : ∀ s, chatNotFound chatName ≠ Event.querySelector s := by simp [chatNotFound]
  have hqa : ∀ s, chatNotFound chatName ≠ Event.querySelectorAll s := by simp [chatNotFound]
  have hc : ∀ n, chatNotFound chatName ≠ Event.click n := by simp [chatNotFound]
  have hw : ∀ n, chatNotFound chatName ≠ Event.wait n := by simp [chatNotFound]
  have hs : ∀ n t, chatNotFound chatName ≠ Event.setTextContent n t := by simp [chatNotFound]
  have hd : ∀ n t, chatNotFound chatName ≠ Event.dispatchEvent n t := by simp [chatNotFound]
  rcases run_cases page chatName message with ⟨ht, hr⟩ | ⟨hn, hr⟩ | ⟨i, e, hf, he, hr⟩ |
    ⟨i, e, input, hf, he, hh, hr⟩ | ⟨i, e, input, hf, he, hh, hr⟩
  · rw [hr]
    exact ⟨fun h => by simp [hann, hqa] at h, fun h => absurd ht (noMatch_not_scanThrows h)⟩
  · rw [hr]
    exact ⟨fun _ => hn, fun _ => by simp⟩
  · rw [hr]
    exact ⟨fun h => by simp [hann, hqa, hq, hc, hw, hne] at h,
      fun h => absurd hf (noMatch_not_firstMatch h)⟩
  · rw [hr]
    exact ⟨fun h => by simp [hann, hqa, hq, hc, hw] at h,
      fun h => absurd hf (noMatch_not_firstMatch h)⟩
  · rw [hr]
    exact ⟨fun h => by simp [hann, hqa, hq, hc, hw, hs, hd, hsent] at h,
      fun h => absurd hf (noMatch_not_firstMatch h)⟩

/-- The `Input field not found` report appears exactly on path 3. -/
theorem inputNotFound_mem_iff (page : Page) (chatName message : String) :
    inputNotFound ∈ (sendFeishuMessage page chatName message).trace ↔
      (∃ i elem, FirstMatch page.chats chatName i elem) ∧
        querySelector page.editables = none := by
  have hne : inputNotFound ≠ chatNotFound chatName :=
    (chatNotFound_ne_inputNotFound chatName).symm
  rcases run_cases page chatName message with ⟨ht, hr⟩ | ⟨hn, hr⟩ | ⟨i, e, hf, he, hr⟩ |
    ⟨i, e, input, hf, he, hh, hr⟩ | ⟨i, e, input, hf, he, hh, hr⟩
  · rw [hr]
    constructor
    · intro h; simp [inputNotFound, announcement] at h
    · rintro ⟨⟨j, e, hf⟩, _⟩; exact absurd ht (firstMatch_not_scanThrows hf)
  · rw [hr]
    constructor
    · intro h
      simp only [List.mem_cons, List.mem_singleton, List.not_mem_nil, or_false] at h
      rcases h with h | h | h
      · simp [inputNotFound, announcement] at h
      · simp [inputNotFound] at h
      · exact absurd h hne
    · rintro ⟨⟨j, e, hf⟩, _⟩; exact absurd hf (noMatch_not_firstMatch hn)
  · rw [hr]
    exact ⟨fun _ => ⟨⟨i, e, hf⟩, he⟩, fun _ => by simp⟩
  · rw [hr]
    constructor
    · intro h; simp [inputNotFound, announcement] at h
    · rintro ⟨_, he2⟩; simp [he] at he2
  · rw [hr]
    constructor
    · intro h; simp [inputNotFound, announcement, messageSent] at h
    · rintro ⟨_, he2⟩; simp [he] at he2

/-! ## The claims -/

/-- C1, as stated, fails: the one matched element is not an HTML element (an
`svg` with `chat` in its class), so no element's text contains `Hany`; line 12
throws, the promise is rejected and `Chat "Hany" not found` is never reported. -/
theorem chat_not_found_fails_without_innerText :
    (∀ e ∈ (Page.mk [Element.mk 1 false ""] []).chats,
      ∀ t, e.getInnerText = some t → ¬ containsText t "Hany") ∧
    (sendFeishuMessage (Page.mk [Element.mk 1 false ""] []) "Hany" "hi").trace =
      [Event.log "Sending to Hany: hi",
       Event.querySelectorAll "[class*=\"chat\"], [class*=\"conversation\"]"] ∧
    (sendFeishuMessage (Page.mk [Element.mk 1 false ""] []) "Hany" "hi").completion =
      Completion.rejected JsError.typeError ∧
    Event.error "Chat \"Hany\" not found" ∉
      (sendFeishuMessage (Page.mk [Element.mk 1 false ""] []) "Hany" "hi").trace := by
  refine ⟨?_, by decide, by decide, by decide⟩
  intro e he t ht
  simp only [List.mem_singleton] at he
  subst he
  simp [Element.getInnerText] at ht

/-- C1, amended: when every matched element is an HTML element and no element's
text contains the chat label, the run is the announcement, the chat query and
the `Chat "..." not found` error report, and nothing else, and the promise
resolves to `undefined`: nothing is clicked, no delay is awaited, the editable
input is not looked up, clicked or written, and no key event is dispatched. -/
theorem chat_not_found_performs_nothing (page : Page) (chatName message : String)
    (h : ∀ e ∈ page.chats, e.isHTMLElement = true ∧ ¬ containsText e.innerText chatName) :
    (sendFeishuMessage page chatName message).trace =
        [Event.log ("Sending to " ++ chatName ++ ": " ++ message),
         Event.querySelectorAll "[class*=\"chat\"], [class*=\"conversation\"]",
         Event.error ("Chat \"" ++ chatName ++ "\" not found")] ∧
      (sendFeishuMessage page chatName message).completion =
        Completion.fulfilled JsValue.undefined ∧
      clicks (sendFeishuMessage page chatName message).trace = [] ∧
      waits (sendFeishuMessage page chatName message).trace = [] ∧
      inputLookups (sendFeishuMessage page chatName message).trace = [] ∧
      (∀ ev ∈ (sendFeishuMessage page chatName message).trace, target ev = none) ∧
      keyEvents (sendFeishuMessage page chatName message).trace = [] := by
  rw [run_chatNotFound page chatName message h]
  simp [chatNotFound, announcement, chatSelector, clicks, waits, inputLookups, keyEvents,
    target]

theorem chat_not_found_performs_nothing_witness :
    (∀ e ∈ (Page.mk [Element.mk 1 true "Bob", Element.mk 2 true "hany"]
        [Element.mk 7 true ""]).chats,
      e.isHTMLElement = true ∧ ¬ containsText e.innerText "Hany") ∧
    ((sendFeishuMessage (Page.mk [Element.mk 1 true "Bob", Element.mk 2 true "hany"]
        [Element.mk 7 true ""]) "Hany" "hi").trace =
        [Event.log ("Sending to " ++ "Hany" ++ ": " ++ "hi"),
         Event.querySelectorAll "[class*=\"chat\"], [class*=\"conversation\"]",
         Event.error ("Chat \"" ++ "Hany" ++ "\" not found")] ∧
      (sendFeishuMessage (Page.mk [Element.mk 1 true "Bob", Element.mk 2 true "hany"]
        [Element.mk 7 true ""]) "Hany" "hi").completion =
        Completion.fulfilled JsValue.undefined ∧
      clicks (sendFeishuMessage (Page.mk [Element.mk 1 true "Bob", Element.mk 2 true "hany"]
        [Element.mk 7 true ""]) "Hany" "hi").trace = [] ∧
      waits (sendFeishuMessage (Page.mk [Element.mk 1 true "Bob", Element.mk 2 true "hany"]
        [Element.mk 7 true ""]) "Hany" "hi").trace = [] ∧
      inputLookups (sendFeishuMessage
        (Page.mk [Element.mk 1 true "Bob", Element.mk 2 true "hany"]
        [Element.mk 7 true ""]) "Hany" "hi").trace = [] ∧
      (∀ ev ∈ (sendFeishuMessage (Page.mk [Element.mk 1 true "Bob", Element.mk 2 true "hany"]
        [Element.mk 7 true ""]) "Hany" "hi").trace, target ev = none) ∧
      keyEvents (sendFeishuMessage (Page.mk [Element.mk 1 true "Bob", Element.mk 2 true "hany"]
        [Element.mk 7 true ""]) "Hany" "hi").trace = []) :=
  ⟨by decide,
    chat_not_found_performs_nothing
      (Page.mk [Element.mk 1 true "Bob", Element.mk 2 true "hany"] [Element.mk 7 true ""])
      "Hany" "hi" (by decide)⟩

/-- C2, as stated, fails: an element's text contains `Hany` and there is no
editable element, but an element that is not an HTML element comes first in the
list; line 12 throws on it, nothing is clicked and `Input field not found` is
never reported. -/
theorem input_not_found_fails_without_innerText :
    (∃ e ∈ (Page.mk [Element.mk 1 false "", Element.mk 2 true "Hany"] []).chats,
      e.getInnerText = some "Hany" ∧ containsText "Hany" "Hany") ∧
    querySelector (Page.mk [Element.mk 1 false "", Element.mk 2 true "Hany"] []).editables =
      none ∧
    (sendFeishuMessage (Page.mk [Element.mk 1 false "", Element.mk 2 true "Hany"] [])
      "Hany" "hi").trace =
      [Event.log "Sending to Hany: hi",
       Event.querySelectorAll "[class*=\"chat\"], [class*=\"conversation\"]"] ∧
    (sendFeishuMessage (Page.mk [Element.mk 1 false "", Element.mk 2 true "Hany"] [])
      "Hany" "hi").completion = Completion.rejected JsError.typeError ∧
    clicks (sendFeishuMessage (Page.mk [Element.mk 1 false "", Element.mk 2 true "Hany"] [])
      "Hany" "hi").trace = [] ∧
    Event.error "Input field not found" ∉
      (sendFeishuMessage (Page.mk [Element.mk 1 false "", Element.mk 2 true "Hany"] [])
        "Hany" "hi").trace := by
  refine ⟨⟨Element.mk 2 true "Hany", by decide, by decide, by decide⟩, by decide, by decide,
    by decide, by decide, by decide⟩

/-- C2, amended: when position `i` holds the first element whose text contains
the chat label, every element before it being an HTML element, and the lookup
of the editable input finds nothing, the run is: announcement, chat query, click
on that element, the 1000ms wait, the input lookup, the `Input field not found`
error report, and the promise resolves to `undefined`.  The click and the wait
have happened; that click is the only click, the 1000ms wait the only wait, and
no content write and no key event occurs. -/
theorem input_not_found_after_activation (page : Page) (chatName message : String)
    (i : Nat) (elem : Element) (hchat : FirstMatch page.chats chatName i elem)
    (hinput : querySelector page.editables = none) :
    (sendFeishuMessage page chatName message).trace =
        [Event.log ("Sending to " ++ chatName ++ ": " ++ message),
         Event.querySelectorAll "[class*=\"chat\"], [class*=\"conversation\"]",
         Event.click elem.node, Event.wait 1000,
         Event.querySelector "[contenteditable=\"true\"]",
         Event.error "Input field not found"] ∧
      (sendFeishuMessage page chatName message).completion =
        Completion.fulfilled JsValue.undefined ∧
      clicks (sendFeishuMessage page chatName message).trace = [elem.node] ∧
      waits (sendFeishuMessage page chatName message).trace = [1000] ∧
      (∀ node text,
        Event.setTextContent node text ∉ (sendFeishuMessage page chatName message).trace) ∧
      keyEvents (sendFeishuMessage page chatName message).trace = [] := by
  rw [run_inputNotFound page chatName message i elem hchat hinput]
  simp [inputNotFound, announcement, chatSelector, inputSelector, clicks, waits, keyEvents]

theorem input_not_found_after_activation_witness :
    FirstMatch (Page.mk [Element.mk 1 true "Bob", Element.mk 2 true "Hany Group",
        Element.mk 3 true "Hany"] []).chats "Hany" 1 (Element.mk 2 true "Hany Group") ∧
    querySelector (Page.mk [Element.mk 1 true "Bob", Element.mk 2 true "Hany Group",
        Element.mk 3 true "Hany"] []).editables = none ∧
    (sendFeishuMessage (Page.mk [Element.mk 1 true "Bob", Element.mk 2 true "Hany Group",
        Element.mk 3 true "Hany"] []) "Hany" "hi").trace =
        [Event.log ("Sending to " ++ "Hany" ++ ": " ++ "hi"),
         Event.querySelectorAll "[class*=\"chat\"], [class*=\"conversation\"]",
         Event.click (Element.mk 2 true "Hany Group").node, Event.wait 1000,
         Event.querySelector "[contenteditable=\"true\"]",
         Event.error "Input field not found"] :=
  ⟨⟨rfl, rfl, by decide, by decide⟩, rfl,
    (input_not_found_after_activation
      (Page.mk [Element.mk 1 true "Bob", Element.mk 2 true "Hany Group",
        Element.mk 3 true "Hany"] []) "Hany" "hi" 1 (Element.mk 2 true "Hany Group")
      ⟨rfl, rfl, by decide, by decide⟩ rfl).1⟩

/-- C3, as stated, fails, in two ways.  An element's text contains `Hany` and an
editable HTML element exists, but an element that is not an HTML element comes
first in the chat list: line 12 throws, nothing is clicked and no success is
reported.  And: the chat matches and an editable element exists, but that
element is not an HTML element and has no `click`: line 33 throws after the
lookup, nothing is written or dispatched and no success is reported. -/
theorem success_fails_without_html_elements :
    ((∃ e ∈ (Page.mk [Element.mk 1 false "", Element.mk 2 true "Hany"]
          [Element.mk 7 true ""]).chats,
        e.getInnerText = some "Hany" ∧ containsText "Hany" "Hany") ∧
      querySelector (Page.mk [Element.mk 1 false "", Element.mk 2 true "Hany"]
          [Element.mk 7 true ""]).editables = some (Element.mk 7 true "") ∧
      (sendFeishuMessage (Page.mk [Element.mk 1 false "", Element.mk 2 true "Hany"]
          [Element.mk 7 true ""]) "Hany" "hi").trace =
        [Event.log "Sending to Hany: hi",
         Event.querySelectorAll "[class*=\"chat\"], [class*=\"conversation\"]"] ∧
      (sendFeishuMessage (Page.mk [Element.mk 1 false "", Element.mk 2 true "Hany"]
          [Element.mk 7 true ""]) "Hany" "hi").completion =
        Completion.rejected JsError.typeError) ∧
    ((∃ e ∈ (Page.mk [Element.mk 2 true "Hany"] [Element.mk 7 false ""]).chats,
        e.getInnerText = some "Hany" ∧ containsText "Hany" "Hany") ∧
      querySelector (Page.mk [Element.mk 2 true "Hany"] [Element.mk 7 false ""]).editables =
        some (Element.mk 7 false "") ∧
      (sendFeishuMessage (Page.mk [Element.mk 2 true "Hany"] [Element.mk 7 false ""])
          "Hany" "hi").trace =
        [Event.log "Sending to Hany: hi",
         Event.querySelectorAll "[class*=\"chat\"], [class*=\"conversation\"]",
         Event.click 2, Event.wait 1000,
         Event.querySelector "[contenteditable=\"true\"]"] ∧
      (sendFeishuMessage (Page.mk [Element.mk 2 true "Hany"] [Element.mk 7 false ""])
          "Hany" "hi").completion = Completion.rejected JsError.typeError) := by
  refine ⟨⟨⟨Element.mk 2 true "Hany", by decide, by decide, by decide⟩, by decide, by decide,
    by decide⟩, ⟨⟨Element.mk 2 true "Hany", by decide, by decide, by decide⟩, by decide,
    by decide, by decide⟩⟩

/-- C3, amended: when position `i` holds the first element whose text contains
the chat label, every element before it being an HTML element, and the editable
input found is an HTML element, the run is, after the announcement and the chat
query that every run starts with, exactly: click the matched chat, wait 1000ms,
look up the input with the selector `[contenteditable="true"]`, click the
input, wait 300ms, set the input's content to the message, wait 300ms, dispatch
the `keydown` Enter key event on the input, report success.  Success is reported
if and only if there are such a first match and such an input. -/
theorem success_sequence (page : Page) (chatName message : String) :
    (∀ i elem input, FirstMatch page.chats chatName i elem →
      querySelector page.editables = some input → input.isHTMLElement = true →
        (sendFeishuMessage page chatName message).trace =
          [Event.log ("Sending to " ++ chatName ++ ": " ++ message),
           Event.querySelectorAll "[class*=\"chat\"], [class*=\"conversation\"]"] ++
          [Event.click elem.node, Event.wait 1000,
           Event.querySelector "[contenteditable=\"true\"]",
           Event.click input.node, Event.wait 300,
           Event.setTextContent input.node message, Event.wait 300,
           Event.dispatchEvent input.node
             { type := "keydown", key := "Enter", code := "Enter", keyCode := 13,
               which := 13, bubbles := true },
           Event.log "✓ Message sent!"] ∧
        (sendFeishuMessage page chatName message).completion =
          Completion.fulfilled JsValue.undefined) ∧
    (Event.log "✓ Message sent!" ∈ (sendFeishuMessage page chatName message).trace ↔
      ∃ i elem input, FirstMatch page.chats chatName i elem ∧
        querySelector page.editables = some input ∧ input.isHTMLElement = true) := by
  refine ⟨?_, messageSent_mem_iff page chatName message⟩
  intro i elem input hchat hinput hhtml
  rw [run_sent page chatName message i elem input hchat hinput hhtml]
  simp [messageSent, announcement, chatSelector, inputSelector, enterEvent]

theorem success_sequence_witness :
    FirstMatch (Page.mk [Element.mk 1 true "Bob", Element.mk 2 true "Hany Group",
        Element.mk 3 true "Hany"] [Element.mk 7 true "", Element.mk 9 true ""]).chats
      "Hany" 1 (Element.mk 2 true "Hany Group") ∧
    querySelector (Page.mk [Element.mk 1 true "Bob", Element.mk 2 true "Hany Group",
        Element.mk 3 true "Hany"] [Element.mk 7 true "", Element.mk 9 true ""]).editables =
      some (Element.mk 7 true "") ∧
    (sendFeishuMessage (Page.mk [Element.mk 1 true "Bob", Element.mk 2 true "Hany Group",
        Element.mk 3 true "Hany"] [Element.mk 7 true "", Element.mk 9 true ""])
        "Hany" "hi").trace =
      [Event.log ("Sending to " ++ "Hany" ++ ": " ++ "hi"),
       Event.querySelectorAll "[class*=\"chat\"], [class*=\"conversation\"]"] ++
      [Event.click (Element.mk 2 true "Hany Group").node, Event.wait 1000,
       Event.querySelector "[contenteditable=\"true\"]",
       Event.click (Element.mk 7 true "").node, Event.wait 300,
       Event.setTextContent (Element.mk 7 true "").node "hi", Event.wait 300,
       Event.dispatchEvent (Element.mk 7 true "").node
         { type := "keydown", key := "Enter", code := "Enter", keyCode := 13,
           which := 13, bubbles := true },
       Event.log "✓ Message sent!"] :=
  ⟨⟨rfl, rfl, by decide, by decide⟩, rfl,
    ((success_sequence (Page.mk [Element.mk 1 true "Bob", Element.mk 2 true "Hany Group",
        Element.mk 3 true "Hany"] [Element.mk 7 true "", Element.mk 9 true ""])
        "Hany" "hi").1 1 (Element.mk 2 true "Hany Group") (Element.mk 7 true "")
        ⟨rfl, rfl, by decide, by decide⟩ rfl rfl).1⟩

/-- C4: on every success path the trace ends with the write of the message to
the input, one 300ms wait, the Enter key event on that input and the success
report; nothing before the write dispatches a key event, so what precedes the
dispatch ends with the write and the wait, and the input's content at that
point is the message exactly, whatever the content of the page was before
(for every message, the empty one and multi-line ones included). -/
theorem content_is_message_before_enter (page : Page) (chatName message : String)
    (init : Nat → String)
    (hsent : Event.log "✓ Message sent!" ∈ (sendFeishuMessage page chatName message).trace) :
    ∃ input pre, querySelector page.editables = some input ∧
      (sendFeishuMessage page chatName message).trace =
        pre ++ [Event.setTextContent input.node message, Event.wait 300,
                Event.dispatchEvent input.node enterEvent, Event.log "✓ Message sent!"] ∧
      keyEvents pre = [] ∧
      beforeDispatch (sendFeishuMessage page chatName message).trace =
        pre ++ [Event.setTextContent input.node message, Event.wait 300] ∧
      textContentAfter init (beforeDispatch (sendFeishuMessage page chatName message).trace)
        input.node = message := by
  obtain ⟨i, elem, input, hchat, hinput, hhtml⟩ :=
    (messageSent_mem_iff page chatName message).mp hsent
  refine ⟨input, [announcement chatName message, Event.querySelectorAll chatSelector,
    Event.click elem.node, Event.wait 1000, Event.querySelector inputSelector,
    Event.click input.node, Event.wait 300], hinput, ?_⟩
  rw [run_sent page chatName message i elem input hchat hinput hhtml]
  simp [messageSent, announcement, keyEvents, beforeDispatch, textContentAfter]

theorem content_is_message_before_enter_witness :
    Event.log "✓ Message sent!" ∈
      (sendFeishuMessage (Page.mk [Element.mk 2 true "Hany"] [Element.mk 7 true "", Element.mk 9 true ""]) "Hany" "one\ntwo").trace ∧
    ∃ input pre, querySelector (Page.mk [Element.mk 2 true "Hany"] [Element.mk 7 true "", Element.mk 9 true ""]).editables = some input ∧
      (sendFeishuMessage (Page.mk [Element.mk 2 true "Hany"] [Element.mk 7 true "", Element.mk 9 true ""]) "Hany" "one\ntwo").trace =
        pre ++ [Event.setTextContent input.node "one\ntwo", Event.wait 300,
                Event.dispatchEvent input.node enterEvent, Event.log "✓ Message sent!"] ∧
      keyEvents pre = [] ∧
      beforeDispatch (sendFeishuMessage (Page.mk [Element.mk 2 true "Hany"] [Element.mk 7 true "", Element.mk 9 true ""]) "Hany" "one\ntwo").trace =
        pre ++ [Event.setTextContent input.node "one\ntwo", Event.wait 300] ∧
      textContentAfter (fun _ => "draft")
        (beforeDispatch (sendFeishuMessage (Page.mk [Element.mk 2 true "Hany"] [Element.mk 7 true "", Element.mk 9 true ""]) "Hany" "one\ntwo").trace)
        input.node = "one\ntwo" :=
  ⟨by decide,
    content_is_message_before_enter (Page.mk [Element.mk 2 true "Hany"] [Element.mk 7 true "", Element.mk 9 true ""]) "Hany" "one\ntwo"
      (fun _ => "draft") (by decide)⟩

/-- C5: on every success path the delays awaited before the Enter key event are
1000ms, 300ms and 300ms in that order, 1600ms in total, and they are all the
delays of the run; on the `Chat "..." not found` path the delays total 0ms and
on the `Input field not found` path 1000ms. -/
theorem delays_before_submission (page : Page) (chatName message : String) :
    (Event.log "✓ Message sent!" ∈ (sendFeishuMessage page chatName message).trace →
      waits (beforeDispatch (sendFeishuMessage page chatName message).trace) =
          [1000, 300, 300] ∧
        waits (sendFeishuMessage page chatName message).trace = [1000, 300, 300] ∧
        (waits (beforeDispatch (sendFeishuMessage page chatName message).trace)).sum = 1600 ∧
        1600 ≤ (waits (beforeDispatch (sendFeishuMessage page chatName message).trace)).sum) ∧
    (Event.error ("Chat \"" ++ chatName ++ "\" not found") ∈
        (sendFeishuMessage page chatName message).trace →
      (waits (sendFeishuMessage page chatName message).trace).sum = 0) ∧
    (Event.error "Input field not found" ∈ (sendFeishuMessage page chatName message).trace →
      (waits (sendFeishuMessage page chatName message).trace).sum = 1000) := by
  refine ⟨?_, ?_, ?_⟩
  · intro hsent
    obtain ⟨i, elem, input, hchat, hinput, hhtml⟩ :=
      (messageSent_mem_iff page chatName message).mp hsent
    rw [run_sent page chatName message i elem input hchat hinput hhtml]
    simp [messageSent, announcement, waits, beforeDispatch]
  · intro hrep
    have hn := (chatNotFound_mem_iff page chatName message).mp hrep
    rw [run_chatNotFound page chatName message hn]
    simp [chatNotFound, announcement, waits]
  · intro hrep
    obtain ⟨⟨i, elem, hchat⟩, hinput⟩ := (inputNotFound_mem_iff page chatName message).mp hrep
    rw [run_inputNotFound page chatName message i elem hchat hinput]
    simp [inputNotFound, announcement, waits]

theorem delays_before_submission_witness :
    (Event.log "✓ Message sent!" ∈
        (sendFeishuMessage (Page.mk [Element.mk 1 true "Bob", Element.mk 2 true "Hany"] [Element.mk 7 true ""]) "Hany" "hi").trace ∧
      waits (beforeDispatch (sendFeishuMessage (Page.mk [Element.mk 1 true "Bob", Element.mk 2 true "Hany"] [Element.mk 7 true ""]) "Hany" "hi").trace) =
          [1000, 300, 300] ∧
        waits (sendFeishuMessage (Page.mk [Element.mk 1 true "Bob", Element.mk 2 true "Hany"] [Element.mk 7 true ""]) "Hany" "hi").trace =
          [1000, 300, 300] ∧
        (waits (beforeDispatch
          (sendFeishuMessage (Page.mk [Element.mk 1 true "Bob", Element.mk 2 true "Hany"] [Element.mk 7 true ""]) "Hany" "hi").trace)).sum = 1600 ∧
        1600 ≤ (waits (beforeDispatch
          (sendFeishuMessage (Page.mk [Element.mk 1 true "Bob", Element.mk 2 true "Hany"] [Element.mk 7 true ""]) "Hany" "hi").trace)).sum) ∧
    (Event.error ("Chat \"" ++ "Hany" ++ "\" not found") ∈
        (sendFeishuMessage (Page.mk [Element.mk 1 true "Bob"] [Element.mk 7 true ""]) "Hany" "hi").trace ∧
      (waits (sendFeishuMessage (Page.mk [Element.mk 1 true "Bob"] [Element.mk 7 true ""]) "Hany" "hi").trace).sum = 0) ∧
    (Event.error "Input field not found" ∈
        (sendFeishuMessage (Page.mk [Element.mk 1 true "Bob", Element.mk 2 true "Hany"] []) "Hany" "hi").trace ∧
      (waits (sendFeishuMessage (Page.mk [Element.mk 1 true "Bob", Element.mk 2 true "Hany"] []) "Hany" "hi").trace).sum = 1000) :=
  ⟨⟨by decide,
      (delays_before_submission (Page.mk [Element.mk 1 true "Bob", Element.mk 2 true "Hany"] [Element.mk 7 true ""]) "Hany" "hi").1 (by decide)⟩,
    ⟨by decide,
      (delays_before_submission (Page.mk [Element.mk 1 true "Bob"] [Element.mk 7 true ""]) "Hany" "hi").2.1 (by decide)⟩,
    ⟨by decide,
      (delays_before_submission (Page.mk [Element.mk 1 true "Bob", Element.mk 2 true "Hany"] []) "Hany" "hi").2.2 (by decide)⟩⟩

/-- C6, as stated, fails: a run that sends the message, a run that ends with
`Chat "Hany" not found` and a run that ends with `Input field not found` hand
the same value, `undefined`, back to the caller. -/
theorem returned_value_same_on_all_paths :
    Event.log "✓ Message sent!" ∈
      (sendFeishuMessage (Page.mk [Element.mk 2 true "Hany"] [Element.mk 7 true ""]) "Hany" "hi").trace ∧
    Event.error "Chat \"Hany\" not found" ∈
      (sendFeishuMessage (Page.mk [Element.mk 1 true "Bob"] [Element.mk 7 true ""]) "Hany" "hi").trace ∧
    Event.error "Input field not found" ∈
      (sendFeishuMessage (Page.mk [Element.mk 2 true "Hany"] []) "Hany" "hi").trace ∧
    (sendFeishuMessage (Page.mk [Element.mk 2 true "Hany"] [Element.mk 7 true ""]) "Hany" "hi").completion = Completion.fulfilled JsValue.undefined ∧
    (sendFeishuMessage (Page.mk [Element.mk 2 true "Hany"] [Element.mk 7 true ""]) "Hany" "hi").completion =
      (sendFeishuMessage (Page.mk [Element.mk 1 true "Bob"] [Element.mk 7 true ""]) "Hany" "hi").completion ∧
    (sendFeishuMessage (Page.mk [Element.mk 2 true "Hany"] [Element.mk 7 true ""]) "Hany" "hi").completion =
      (sendFeishuMessage (Page.mk [Element.mk 2 true "Hany"] []) "Hany" "hi").completion ∧
    (sendFeishuMessage (Page.mk [Element.mk 1 true "Bob"] [Element.mk 7 true ""]) "Hany" "hi").completion =
      (sendFeishuMessage (Page.mk [Element.mk 2 true "Hany"] []) "Hany" "hi").completion := by
  decide

/-- C6, amended: the function never hands a value other than `undefined` to its
caller: the promise resolves to `undefined` or is rejected with a `TypeError`,
and it resolves exactly when the run ends with one of the three console
reports.  The three results are told apart by that last report, which is the
`Chat "..." not found` error exactly when every matched element is an HTML
element whose text does not contain the label, the `Input field not found`
error exactly when a first match is reached and no editable input is found, and
the success log exactly when a first match is reached and the editable input
found is an HTML element. -/
theorem returned_undefined_report_on_console (page : Page) (chatName message : String) :
    ((sendFeishuMessage page chatName message).completion =
        Completion.fulfilled JsValue.undefined ∨
      (sendFeishuMessage page chatName message).completion =
        Completion.rejected JsError.typeError) ∧
    ((sendFeishuMessage page chatName message).completion =
        Completion.fulfilled JsValue.undefined ↔
      (sendFeishuMessage page chatName message).trace.getLast? =
          some (Event.error ("Chat \"" ++ chatName ++ "\" not found")) ∨
        (sendFeishuMessage page chatName message).trace.getLast? =
          some (Event.error "Input field not found") ∨
        (sendFeishuMessage page chatName message).trace.getLast? =
          some (Event.log "✓ Message sent!")) ∧
    ((sendFeishuMessage page chatName message).trace.getLast? =
        some (Event.error ("Chat \"" ++ chatName ++ "\" not found")) ↔
      ∀ e ∈ page.chats, e.isHTMLElement = true ∧ ¬ containsText e.innerText chatName) ∧
    ((sendFeishuMessage page chatName message).trace.getLast? =
        some (Event.error "Input field not found") ↔
      (∃ i elem, FirstMatch page.chats chatName i elem) ∧
        querySelector page.editables = none) ∧
    ((sendFeishuMessage page chatName message).trace.getLast? =
        some (Event.log "✓ Message sent!") ↔
      ∃ i elem input, FirstMatch page.chats chatName i elem ∧
        querySelector page.editables = some input ∧ input.isHTMLElement = true) := by
  have hne := chatNotFound_ne_inputNotFound chatName
  have hne2 : ¬ ("Input field not found" = "Chat \"" ++ chatName ++ "\" not found") :=
    fun h => hne (by simp [chatNotFound, inputNotFound, h])
  have hne3 : ¬ ("Chat \"" ++ chatName ++ "\" not found" = "Input field not found") :=
    fun h => hne2 h.symm
  rcases run_cases page chatName message with ⟨ht, hr⟩ | ⟨hn, hr⟩ | ⟨i, e, hf, he, hr⟩ |
    ⟨i, e, input, hf, he, hh, hr⟩ | ⟨i, e, input, hf, he, hh, hr⟩
  · rw [hr]
    refine ⟨Or.inr rfl, by simp, ?_, ?_, ?_⟩
    · exact ⟨fun h => by simp at h, fun h => absurd ht (noMatch_not_scanThrows h)⟩
    · exact ⟨fun h => by simp at h,
        fun ⟨⟨j, e, hf⟩, _⟩ => absurd ht (firstMatch_not_scanThrows hf)⟩
    · exact ⟨fun h => by simp at h,
        fun ⟨j, e, _, hf, _⟩ => absurd ht (firstMatch_not_scanThrows hf)⟩
  · rw [hr]
    refine ⟨Or.inl rfl, by simp [chatNotFound], ?_, ?_, ?_⟩
    · exact ⟨fun _ => hn, fun _ => by simp [chatNotFound]⟩
    · exact ⟨fun h => by simp [chatNotFound, hne3] at h,
        fun ⟨⟨j, e, hf⟩, _⟩ => absurd hf (noMatch_not_firstMatch hn)⟩
    · exact ⟨fun h => by simp [chatNotFound] at h,
        fun ⟨j, e, _, hf, _⟩ => absurd hf (noMatch_not_firstMatch hn)⟩
  · rw [hr]
    refine ⟨Or.inl rfl, by simp [inputNotFound], ?_, ?_, ?_⟩
    · exact ⟨fun h => by simp [inputNotFound, hne2] at h,
        fun h => absurd hf (noMatch_not_firstMatch h)⟩
    · exact ⟨fun _ => ⟨⟨i, e, hf⟩, he⟩, fun _ => by simp [inputNotFound]⟩
    · exact ⟨fun h => by simp [inputNotFound] at h,
        fun ⟨_, _, input, _, he2, _⟩ => by simp [he] at he2⟩
  · rw [hr]
    refine ⟨Or.inr rfl, by simp, ?_, ?_, ?_⟩
    · exact ⟨fun h => by simp at h, fun h => absurd hf (noMatch_not_firstMatch h)⟩
    · exact ⟨fun h => by simp at h, fun ⟨_, he2⟩ => by simp [he] at he2⟩
    · refine ⟨fun h => by simp at h, ?_⟩
      rintro ⟨_, _, input2, _, he2, hh2⟩
      have : input = input2 := Option.some.inj (he.symm.trans he2)
      subst this
      simp [hh] at hh2
  · rw [hr]
    refine ⟨Or.inl rfl, by simp [messageSent], ?_, ?_, ?_⟩
    · exact ⟨fun h => by simp [messageSent] at h,
        fun h => absurd hf (noMatch_not_firstMatch h)⟩
    · exact ⟨fun h => by simp [messageSent] at h, fun ⟨_, he2⟩ => by simp [he] at he2⟩
    · exact ⟨fun _ => ⟨i, e, input, hf, he, hh⟩, fun _ => by simp [messageSent]⟩

/-- C7, as stated, fails: an element's text contains `Hany`, but an element that
is not an HTML element comes before it in the list; line 12 throws on it and no
chat is clicked at all. -/
theorem no_activation_behind_element_without_innerText :
    (∃ e ∈ (Page.mk [Element.mk 1 false "", Element.mk 2 true "Hany"]
          [Element.mk 7 true ""]).chats,
      e.getInnerText = some "Hany" ∧ "Hany".toList <:+: "Hany".toList) ∧
    clicks (sendFeishuMessage (Page.mk [Element.mk 1 false "", Element.mk 2 true "Hany"]
      [Element.mk 7 true ""]) "Hany" "hi").trace = [] ∧
    (sendFeishuMessage (Page.mk [Element.mk 1 false "", Element.mk 2 true "Hany"]
      [Element.mk 7 true ""]) "Hany" "hi").completion =
        Completion.rejected JsError.typeError := by
  refine ⟨⟨Element.mk 2 true "Hany", by decide, by decide, by decide⟩, by decide, by decide⟩

/-- C7, amended: when position `i` holds the first element, in list order, whose
text contains the chat label as a contiguous run of the same characters, every
element before it being an HTML element (whose text does not contain the
label), the first click of the run is on that element, right after the chat
query, and the run clicks nothing else except, later, the editable input it
finds; elements before and after the match are not clicked by the scan.  Some
element is clicked if and only if there is such a first match; otherwise
nothing is clicked. -/
theorem activates_first_match (page : Page) (chatName message : String) :
    (∀ (i : Nat) (elem : Element), (page.chats[i]? = some elem ∧ elem.isHTMLElement = true ∧
        chatName.toList <:+: elem.innerText.toList ∧
        ∀ j, j < i → ∀ e : Element, page.chats[j]? = some e →
          e.isHTMLElement = true ∧ ¬ chatName.toList <:+: e.innerText.toList) →
      (∃ rest, (sendFeishuMessage page chatName message).trace =
        [Event.log ("Sending to " ++ chatName ++ ": " ++ message),
         Event.querySelectorAll "[class*=\"chat\"], [class*=\"conversation\"]",
         Event.click elem.node, Event.wait 1000] ++ rest) ∧
      (clicks (sendFeishuMessage page chatName message).trace = [elem.node] ∨
        ∃ input, querySelector page.editables = some input ∧
          clicks (sendFeishuMessage page chatName message).trace =
            [elem.node, input.node])) ∧
    ((∃ node, Event.click node ∈ (sendFeishuMessage page chatName message).trace) ↔
      ∃ (i : Nat) (elem : Element), page.chats[i]? = some elem ∧ elem.isHTMLElement = true ∧
        chatName.toList <:+: elem.innerText.toList ∧
        ∀ j, j < i → ∀ e : Element, page.chats[j]? = some e →
          e.isHTMLElement = true ∧ ¬ chatName.toList <:+: e.innerText.toList) ∧
    (clicks (sendFeishuMessage page chatName message).trace = [] ↔
      ¬ ∃ (i : Nat) (elem : Element), page.chats[i]? = some elem ∧ elem.isHTMLElement = true ∧
        chatName.toList <:+: elem.innerText.toList ∧
        ∀ j, j < i → ∀ e : Element, page.chats[j]? = some e →
          e.isHTMLElement = true ∧ ¬ chatName.toList <:+: e.innerText.toList) := by
  have key : ∀ i elem, FirstMatch page.chats chatName i elem →
      (∃ rest, (sendFeishuMessage page chatName message).trace =
        [Event.log ("Sending to " ++ chatName ++ ": " ++ message),
         Event.querySelectorAll "[class*=\"chat\"], [class*=\"conversation\"]",
         Event.click elem.node, Event.wait 1000] ++ rest) ∧
      (clicks (sendFeishuMessage page chatName message).trace = [elem.node] ∨
        ∃ input, querySelector page.editables = some input ∧
          clicks (sendFeishuMessage page chatName message).trace =
            [elem.node, input.node]) := by
    intro i elem hf
    cases he : querySelector page.editables with
    | none =>
      rw [run_inputNotFound page chatName message i elem hf he]
      exact ⟨⟨_, by simp [announcement, chatSelector]; rfl⟩,
        Or.inl (by simp [clicks, announcement, inputNotFound])⟩
    | some input =>
      cases hh : input.isHTMLElement with
      | false =>
        rw [run_clickThrows page chatName message i elem input hf he hh]
        exact ⟨⟨_, by simp [announcement, chatSelector]; rfl⟩,
          Or.inl (by simp [clicks, announcement])⟩
      | true =>
        rw [run_sent page chatName message i elem input hf he hh]
        exact ⟨⟨_, by simp [announcement, chatSelector]; rfl⟩,
          Or.inr ⟨input, rfl, by simp [clicks, announcement, messageSent]⟩⟩
  have hnone : (¬ ∃ i elem, FirstMatch page.chats chatName i elem) →
      (sendFeishuMessage page chatName message).trace =
          [announcement chatName message, Event.querySelectorAll chatSelector] ∨
        (sendFeishuMessage page chatName message).trace =
          [announcement chatName message, Event.querySelectorAll chatSelector,
           chatNotFound chatName] := by
    intro hno
    rcases run_cases page chatName message with ⟨_, hr⟩ | ⟨_, hr⟩ | ⟨i, e, hf, _⟩ |
      ⟨i, e, _, hf, _⟩ | ⟨i, e, _, hf, _⟩
    · exact Or.inl (by rw [hr])
    · exact Or.inr (by rw [hr])
    · exact absurd ⟨i, e, hf⟩ hno
    · exact absurd ⟨i, e, hf⟩ hno
    · exact absurd ⟨i, e, hf⟩ hno
  refine ⟨key, ?_, ?_⟩
  · constructor
    · rintro ⟨node, hmem⟩
      by_contra hno
      rcases hnone hno with hr | hr <;> rw [hr] at hmem <;>
        simp [announcement, chatNotFound] at hmem
    · rintro ⟨i, elem, hf⟩
      obtain ⟨⟨rest, hr⟩, _⟩ := key i elem hf
      exact ⟨elem.node, by rw [hr]; simp⟩
  · constructor
    · rintro hnil ⟨i, elem, hf⟩
      rcases (key i elem hf).2 with h | ⟨_, _, h⟩ <;> rw [h] at hnil <;> simp at hnil
    · intro hno
      rcases hnone hno with hr | hr <;> rw [hr] <;> simp [clicks, announcement, chatNotFound]

theorem activates_first_match_witness :
    clicks (sendFeishuMessage (Page.mk [Element.mk 1 true "Bob", Element.mk 2 true "hany",
        Element.mk 3 true "Hany Group", Element.mk 4 true "Hany"] [])
      "Hany" "hi").trace = [(Element.mk 3 true "Hany Group").node] ∨
    ∃ input, querySelector (Page.mk [Element.mk 1 true "Bob", Element.mk 2 true "hany",
        Element.mk 3 true "Hany Group", Element.mk 4 true "Hany"] []).editables =
          some input ∧
      clicks (sendFeishuMessage (Page.mk [Element.mk 1 true "Bob", Element.mk 2 true "hany",
        Element.mk 3 true "Hany Group", Element.mk 4 true "Hany"] [])
      "Hany" "hi").trace = [(Element.mk 3 true "Hany Group").node, input.node] :=
  ((activates_first_match (Page.mk [Element.mk 1 true "Bob", Element.mk 2 true "hany",
        Element.mk 3 true "Hany Group", Element.mk 4 true "Hany"] [])
      "Hany" "hi").1 2 (Element.mk 3 true "Hany Group")
    ⟨rfl, rfl, by decide, by decide⟩).2

/-- C8: on every success path exactly one key event is dispatched, on the input
found by the lookup, and it is the Enter key-press: type `keydown`, key `Enter`,
code `Enter`, keyCode 13, which 13, bubbles true; on the `Chat "..." not found`
and `Input field not found` paths no key event is dispatched. -/
theorem one_enter_key_event (page : Page) (chatName message : String) :
    (Event.log "✓ Message sent!" ∈ (sendFeishuMessage page chatName message).trace →
      ∃ input, querySelector page.editables = some input ∧
        keyEvents (sendFeishuMessage page chatName message).trace =
          [(input.node, { type := "keydown", key := "Enter", code := "Enter", keyCode := 13,
                          which := 13, bubbles := true })]) ∧
    (Event.error ("Chat \"" ++ chatName ++ "\" not found") ∈
        (sendFeishuMessage page chatName message).trace →
      keyEvents (sendFeishuMessage page chatName message).trace = []) ∧
    (Event.error "Input field not found" ∈ (sendFeishuMessage page chatName message).trace →
      keyEvents (sendFeishuMessage page chatName message).trace = []) := by
  refine ⟨?_, ?_, ?_⟩
  · intro hsent
    obtain ⟨i, elem, input, hchat, hinput, hhtml⟩ :=
      (messageSent_mem_iff page chatName message).mp hsent
    refine ⟨input, hinput, ?_⟩
    rw [run_sent page chatName message i elem input hchat hinput hhtml]
    simp [messageSent, announcement, keyEvents, enterEvent]
  · intro hrep
    have hn := (chatNotFound_mem_iff page chatName message).mp hrep
    rw [run_chatNotFound page chatName message hn]
    simp [chatNotFound, announcement, keyEvents]
  · intro hrep
    obtain ⟨⟨i, elem, hchat⟩, hinput⟩ := (inputNotFound_mem_iff page chatName message).mp hrep
    rw [run_inputNotFound page chatName message i elem hchat hinput]
    simp [inputNotFound, announcement, keyEvents]

theorem one_enter_key_event_witness :
    (Event.log "✓ Message sent!" ∈
        (sendFeishuMessage (Page.mk [Element.mk 1 true "Bob", Element.mk 2 true "Hany"]
          [Element.mk 7 true "", Element.mk 9 true ""]) "Hany" "hi").trace ∧
      ∃ input, querySelector (Page.mk [Element.mk 1 true "Bob", Element.mk 2 true "Hany"]
          [Element.mk 7 true "", Element.mk 9 true ""]).editables = some input ∧
        keyEvents (sendFeishuMessage (Page.mk [Element.mk 1 true "Bob", Element.mk 2 true "Hany"]
          [Element.mk 7 true "", Element.mk 9 true ""]) "Hany" "hi").trace =
          [(input.node, { type := "keydown", key := "Enter", code := "Enter", keyCode := 13,
                          which := 13, bubbles := true })]) ∧
    (Event.error ("Chat \"" ++ "Hany" ++ "\" not found") ∈
        (sendFeishuMessage (Page.mk [Element.mk 1 true "Bob"] [Element.mk 7 true ""])
          "Hany" "hi").trace ∧
      keyEvents (sendFeishuMessage (Page.mk [Element.mk 1 true "Bob"] [Element.mk 7 true ""])
        "Hany" "hi").trace = []) ∧
    (Event.error "Input field not found" ∈
        (sendFeishuMessage (Page.mk [Element.mk 1 true "Bob", Element.mk 2 true "Hany"] [])
          "Hany" "hi").trace ∧
      keyEvents (sendFeishuMessage (Page.mk [Element.mk 1 true "Bob", Element.mk 2 true "Hany"] [])
        "Hany" "hi").trace = []) :=
  ⟨⟨by decide,
      (one_enter_key_event (Page.mk [Element.mk 1 true "Bob", Element.mk 2 true "Hany"]
          [Element.mk 7 true "", Element.mk 9 true ""]) "Hany" "hi").1 (by decide)⟩,
    ⟨by decide,
      (one_enter_key_event (Page.mk [Element.mk 1 true "Bob"] [Element.mk 7 true ""])
        "Hany" "hi").2.1 (by decide)⟩,
    ⟨by decide,
      (one_enter_key_event (Page.mk [Element.mk 1 true "Bob", Element.mk 2 true "Hany"] [])
        "Hany" "hi").2.2 (by decide)⟩⟩

/-- C9, as stated, fails: the matched chat element is itself an editable
element, the second one of the document; the input is the first editable
element, node 0, and the run also clicks the other editable element, node 1. -/
theorem clicks_another_editable_element :
    querySelector (Page.mk [Element.mk 1 true "Hany"]
        [Element.mk 0 true "", Element.mk 1 true "Hany"]).editables =
      some (Element.mk 0 true "") ∧
    Element.mk 1 true "Hany" ∈ (Page.mk [Element.mk 1 true "Hany"]
        [Element.mk 0 true "", Element.mk 1 true "Hany"]).editables ∧
    (Element.mk 1 true "Hany").node ≠ (Element.mk 0 true "").node ∧
    Event.click (Element.mk 1 true "Hany").node ∈
      (sendFeishuMessage (Page.mk [Element.mk 1 true "Hany"]
        [Element.mk 0 true "", Element.mk 1 true "Hany"]) "Hany" "hi").trace ∧
    clicks (sendFeishuMessage (Page.mk [Element.mk 1 true "Hany"]
        [Element.mk 0 true "", Element.mk 1 true "Hany"]) "Hany" "hi").trace = [1, 0] := by
  decide

/-- C9, amended: in a run that activates a chat, the input is looked up exactly
once, with the selector `[contenteditable="true"]`, right after the chat click
and the 1000ms wait; the lookup yields the first editable element in document
order, whatever other editable elements follow it.  Every interaction after the
lookup acts on that element, and when it is an HTML element they are exactly the
input click, the content write and the Enter key event.  Over the whole run no
other element is written or sent an event, and the only other element clicked is
the activated chat element. -/
theorem input_looked_up_once (page : Page) (chatName message : String) (i : Nat)
    (elem : Element) (hchat : FirstMatch page.chats chatName i elem) :
    ∃ rest, (sendFeishuMessage page chatName message).trace =
        [Event.log ("Sending to " ++ chatName ++ ": " ++ message),
         Event.querySelectorAll "[class*=\"chat\"], [class*=\"conversation\"]",
         Event.click elem.node, Event.wait 1000,
         Event.querySelector "[contenteditable=\"true\"]"] ++ rest ∧
      inputLookups (sendFeishuMessage page chatName message).trace =
        ["[contenteditable=\"true\"]"] ∧
      (∀ ev ∈ rest, ∀ node, target ev = some node →
        page.editables.head?.map Element.node = some node) ∧
      (∀ input, page.editables.head? = some input → input.isHTMLElement = true →
        rest.filter (fun ev => (target ev).isSome) =
          [Event.click input.node, Event.setTextContent input.node message,
           Event.dispatchEvent input.node
             { type := "keydown", key := "Enter", code := "Enter", keyCode := 13,
               which := 13, bubbles := true }]) ∧
      (∀ node text,
        Event.setTextContent node text ∈ (sendFeishuMessage page chatName message).trace →
          page.editables.head?.map Element.node = some node) ∧
      (∀ node ev,
        Event.dispatchEvent node ev ∈ (sendFeishuMessage page chatName message).trace →
          page.editables.head?.map Element.node = some node) ∧
      (∀ node, Event.click node ∈ (sendFeishuMessage page chatName message).trace →
        node = elem.node ∨ page.editables.head?.map Element.node = some node) := by
  cases he : querySelector page.editables with
  | none =>
    have hhead : page.editables.head? = none := he
    rw [run_inputNotFound page chatName message i elem hchat he]
    refine ⟨[inputNotFound], by simp [announcement, chatSelector, inputSelector],
      by simp [inputLookups, announcement, inputNotFound, inputSelector],
      by simp [target, inputNotFound], ?_, by simp [announcement, inputNotFound],
      by simp [announcement, inputNotFound], ?_⟩
    · intro input h; simp [hhead] at h
    · intro node h
      simp [announcement, inputNotFound] at h
      exact Or.inl h
  | some input =>
    have hhead : page.editables.head? = some input := he
    cases hh : input.isHTMLElement with
    | false =>
      rw [run_clickThrows page chatName message i elem input hchat he hh]
      refine ⟨[], by simp [announcement, chatSelector, inputSelector],
        by simp [inputLookups, announcement, inputSelector], by simp, ?_,
        by simp [announcement], by simp [announcement], ?_⟩
      · intro input2 h hh2
        have : input = input2 := Option.some.inj (hhead.symm.trans h)
        subst this
        simp [hh] at hh2
      · intro node h
        simp [announcement] at h
        exact Or.inl h
    | true =>
      rw [run_sent page chatName message i elem input hchat he hh]
      refine ⟨[Event.click input.node, Event.wait 300,
          Event.setTextContent input.node message, Event.wait 300,
          Event.dispatchEvent input.node enterEvent, messageSent],
        by simp [announcement, chatSelector, inputSelector],
        by simp [inputLookups, announcement, messageSent, inputSelector], ?_, ?_, ?_, ?_, ?_⟩
      · intro ev hev node hnode
        simp only [List.mem_cons, List.mem_singleton, List.not_mem_nil, or_false] at hev
        rcases hev with rfl | rfl | rfl | rfl | rfl | rfl <;>
          simp [target, messageSent] at hnode <;> simp [hhead, hnode]
      · intro input2 h _
        have : input = input2 := Option.some.inj (hhead.symm.trans h)
        subst this
        simp [List.filter, target, messageSent, enterEvent]
      · intro node text h
        simp [announcement, messageSent] at h
        simp [hhead, h.1]
      · intro node ev h
        simp [announcement, messageSent] at h
        simp [hhead, h.1]
      · intro node h
        simp [announcement, messageSent] at h
        rcases h with h | h
        · exact Or.inl h
        · exact Or.inr (by simp [hhead, h])

theorem input_looked_up_once_witness :
    FirstMatch (Page.mk [Element.mk 1 true "Bob", Element.mk 2 true "Hany"]
        [Element.mk 7 true "", Element.mk 9 true "", Element.mk 4 true ""]).chats
      "Hany" 1 (Element.mk 2 true "Hany") ∧
    ∃ rest, (sendFeishuMessage (Page.mk [Element.mk 1 true "Bob", Element.mk 2 true "Hany"]
        [Element.mk 7 true "", Element.mk 9 true "", Element.mk 4 true ""])
        "Hany" "hi").trace =
        [Event.log ("Sending to " ++ "Hany" ++ ": " ++ "hi"),
         Event.querySelectorAll "[class*=\"chat\"], [class*=\"conversation\"]",
         Event.click (Element.mk 2 true "Hany").node, Event.wait 1000,
         Event.querySelector "[contenteditable=\"true\"]"] ++ rest ∧
      inputLookups (sendFeishuMessage (Page.mk [Element.mk 1 true "Bob", Element.mk 2 true "Hany"]
        [Element.mk 7 true "", Element.mk 9 true "", Element.mk 4 true ""])
        "Hany" "hi").trace = ["[contenteditable=\"true\"]"] :=
  ⟨⟨rfl, rfl, by decide, by decide⟩,
    (input_looked_up_once (Page.mk [Element.mk 1 true "Bob", Element.mk 2 true "Hany"]
        [Element.mk 7 true "", Element.mk 9 true "", Element.mk 4 true ""])
        "Hany" "hi" 1 (Element.mk 2 true "Hany") ⟨rfl, rfl, by decide, by decide⟩).imp
      fun _ h => ⟨h.1, h.2.1⟩⟩

/-- C10, as stated, fails, in two ways.  With the empty chat label, a one-element
chat list and no editable element, the first chat is clicked, the run ends with
`Input field not found`, and the message is neither written nor submitted.  And
with the empty label and a first element that is not an HTML element, line 12
throws: the list is not empty, yet the first chat is not clicked. -/
theorem empty_label_no_input_sends_nothing :
    ((Page.mk [Element.mk 1 true "General"] []).chats ≠ [] ∧
      (sendFeishuMessage (Page.mk [Element.mk 1 true "General"] []) "" "hi").trace =
        [Event.log "Sending to : hi",
         Event.querySelectorAll "[class*=\"chat\"], [class*=\"conversation\"]",
         Event.click 1, Event.wait 1000, Event.querySelector "[contenteditable=\"true\"]",
         Event.error "Input field not found"] ∧
      keyEvents (sendFeishuMessage (Page.mk [Element.mk 1 true "General"] []) "" "hi").trace =
        []) ∧
    ((Page.mk [Element.mk 1 false ""] [Element.mk 7 true ""]).chats ≠ [] ∧
      clicks (sendFeishuMessage (Page.mk [Element.mk 1 false ""] [Element.mk 7 true ""])
        "" "hi").trace = [] ∧
      (sendFeishuMessage (Page.mk [Element.mk 1 false ""] [Element.mk 7 true ""])
        "" "hi").completion = Completion.rejected JsError.typeError) := by
  decide

/-- C10, amended: with the empty chat label the run ends with the
`Chat "" not found` report exactly when the chat list is empty.  When the first
element of the list is an HTML element, it is the chat clicked, whatever its
text, and the run goes on to the input lookup: it writes the message to the
editable input found and dispatches Enter on it when that input is an HTML
element, and ends with `Input field not found` when no editable input is
found. -/
theorem empty_label_activates_first_chat (page : Page) (message : String) :
    (Event.error "Chat \"\" not found" ∈ (sendFeishuMessage page "" message).trace ↔
      page.chats = []) ∧
    (∀ first others, page.chats = first :: others → first.isHTMLElement = true →
      (clicks (sendFeishuMessage page "" message).trace).head? = some first.node ∧
      (∀ input, querySelector page.editables = some input → input.isHTMLElement = true →
        (sendFeishuMessage page "" message).trace =
          [Event.log ("Sending to " ++ "" ++ ": " ++ message),
           Event.querySelectorAll "[class*=\"chat\"], [class*=\"conversation\"]",
           Event.click first.node, Event.wait 1000,
           Event.querySelector "[contenteditable=\"true\"]",
           Event.click input.node, Event.wait 300,
           Event.setTextContent input.node message, Event.wait 300,
           Event.dispatchEvent input.node
             { type := "keydown", key := "Enter", code := "Enter", keyCode := 13,
               which := 13, bubbles := true },
           Event.log "✓ Message sent!"]) ∧
      (querySelector page.editables = none →
        (sendFeishuMessage page "" message).trace =
          [Event.log ("Sending to " ++ "" ++ ": " ++ message),
           Event.querySelectorAll "[class*=\"chat\"], [class*=\"conversation\"]",
           Event.click first.node, Event.wait 1000,
           Event.querySelector "[contenteditable=\"true\"]",
           Event.error "Input field not found"])) := by
  have hfirst : ∀ first others, page.chats = first :: others → first.isHTMLElement = true →
      FirstMatch page.chats "" 0 first := by
    intro first others hl hh
    exact ⟨by simp [hl], hh, List.nil_infix, by intro j hj; omega⟩
  constructor
  · have hiff := chatNotFound_mem_iff page "" message
    have hmsg : chatNotFound "" = Event.error "Chat \"\" not found" := by decide
    rw [hmsg] at hiff
    rw [hiff]
    constructor
    · intro hall
      cases hl : page.chats with
      | nil => rfl
      | cons first others =>
        have := hall first (by simp [hl])
        exact absurd List.nil_infix this.2
    · intro hnil e he
      simp [hnil] at he
  · intro first others hl hh
    have h0 := hfirst first others hl hh
    refine ⟨?_, ?_, ?_⟩
    · cases he : querySelector page.editables with
      | none =>
        rw [run_inputNotFound page "" message 0 first h0 he]
        simp [clicks, announcement, inputNotFound]
      | some input =>
        cases hi : input.isHTMLElement with
        | false =>
          rw [run_clickThrows page "" message 0 first input h0 he hi]
          simp [clicks, announcement]
        | true =>
          rw [run_sent page "" message 0 first input h0 he hi]
          simp [clicks, announcement, messageSent]
    · intro input he hi
      rw [run_sent page "" message 0 first input h0 he hi]
      simp [announcement, messageSent, chatSelector, inputSelector, enterEvent]
    · intro he
      rw [run_inputNotFound page "" message 0 first h0 he]
      simp [announcement, inputNotFound, chatSelector, inputSelector]

theorem empty_label_activates_first_chat_witness :
    (Page.mk [Element.mk 1 true "General", Element.mk 2 true "Hany"]
        [Element.mk 7 true ""]).chats =
      Element.mk 1 true "General" :: [Element.mk 2 true "Hany"] ∧
    (clicks (sendFeishuMessage (Page.mk [Element.mk 1 true "General", Element.mk 2 true "Hany"]
        [Element.mk 7 true ""]) "" "hi").trace).head? =
      some (Element.mk 1 true "General").node ∧
    (sendFeishuMessage (Page.mk [Element.mk 1 true "General", Element.mk 2 true "Hany"]
        [Element.mk 7 true ""]) "" "hi").trace =
      [Event.log ("Sending to " ++ "" ++ ": " ++ "hi"),
       Event.querySelectorAll "[class*=\"chat\"], [class*=\"conversation\"]",
       Event.click (Element.mk 1 true "General").node, Event.wait 1000,
       Event.querySelector "[contenteditable=\"true\"]",
       Event.click (Element.mk 7 true "").node, Event.wait 300,
       Event.setTextContent (Element.mk 7 true "").node "hi", Event.wait 300,
       Event.dispatchEvent (Element.mk 7 true "").node
         { type := "keydown", key := "Enter", code := "Enter", keyCode := 13,
           which := 13, bubbles := true },
       Event.log "✓ Message sent!"] :=
  ⟨rfl,
    ((empty_label_activates_first_chat
      (Page.mk [Element.mk 1 true "General", Element.mk 2 true "Hany"] [Element.mk 7 true ""])
      "hi").2 (Element.mk 1 true "General") [Element.mk 2 true "Hany"] rfl rfl).1,
    ((empty_label_activates_first_chat
      (Page.mk [Element.mk 1 true "General", Element.mk 2 true "Hany"] [Element.mk 7 true ""])
      "hi").2 (Element.mk 1 true "General") [Element.mk 2 true "Hany"] rfl rfl).2.1
      (Element.mk 7 true "") rfl rfl⟩

end Feishu
